import Mathlib

/-!
Verification of the ZigBee-Manager gateway core against its specification.

The definitions below are shallow embeddings of the Python source:

* `src/handlers/blinds.py`       — `WindowCoveringHandler`
* `src/handlers/power.py`        — `ElectricalMeasurementHandler`
* `src/handlers/zones_handler.py`— `ZonesMessageHandler`
* `src/handlers/fast_path.py`    — `FastPathProcessor`
* `src/handlers/security.py`     — `IASZoneHandler`
* `src/modules/automation.py`    — `AutomationEngine`

Python floats are modelled as exact rationals (`Rat`); on the integer-valued
domains exercised here the IEEE double computations of the source coincide
with the rational values.  Python `int(x)` on a real value truncates toward
zero, which `pyTrunc` models.  Python dicts of state keys are modelled as
association lists updated in place.
-/

/-- Normalised device-state values: the state map holds booleans, integers,
floats (modelled as rationals) and strings, as described by the data model. -/
inductive PyVal where
  | vb : Bool → PyVal
  | vi : Int → PyVal
  | vf : Rat → PyVal
  | vs : String → PyVal
deriving DecidableEq

/-- Per-device state map `name → value` (a Python dict, as an assoc list). -/
abbrev StateMap := List (String × PyVal)

/-- Dict lookup: first binding of the key, if any. -/
def getKey (m : StateMap) (k : String) : Option PyVal :=
  match m with
  | [] => none
  | (k₂, v) :: rest => if k₂ = k then some v else getKey rest k

/-- Dict assignment `m[k] = v`: replaces the binding in place, else appends. -/
def setKey (m : StateMap) (k : String) (v : PyVal) : StateMap :=
  match m with
  | [] => [(k, v)]
  | (k₂, v₂) :: rest => if k₂ = k then (k₂, v) :: rest else (k₂, v₂) :: setKey rest k v

/-- Sequence of dict assignments, leftmost applied first. -/
def setKeys (m : StateMap) (kvs : List (String × PyVal)) : StateMap :=
  kvs.foldl (fun acc kv => setKey acc kv.1 kv.2) m

/-- Python `int(x)` applied to a real value: truncation toward zero. -/
def pyTrunc (q : Rat) : Int :=
  if q < 0 then ⌈q⌉ else ⌊q⌋

/-- Round-half-to-even on an exact value, the tie rule of Python `round`. -/
def roundHalfEven (q : Rat) : Int :=
  if q - ⌊q⌋ < 1/2 then ⌊q⌋
  else if q - ⌊q⌋ > 1/2 then ⌊q⌋ + 1
  else if ⌊q⌋ % 2 = 0 then ⌊q⌋ else ⌊q⌋ + 1

/-- Python `round(x, d)` modelled over exact rationals. -/
def pyRound (q : Rat) (d : Nat) : Rat :=
  (roundHalfEven (q * 10 ^ d) : Rat) / 10 ^ d

namespace Blinds

/-! Embedding of `WindowCoveringHandler` (src/handlers/blinds.py). -/

/-- Attribute id of `current_position_lift_percentage` (0x0008). -/
def ATTR_CURRENT_POSITION_LIFT_PCT : Nat := 0x0008

/-- Attribute id of `current_position_tilt_percentage` (0x0009). -/
def ATTR_CURRENT_POSITION_TILT_PCT : Nat := 0x0009

/-- Attribute id of `window_covering_type` (0x0000). -/
def ATTR_COVERING_TYPE : Nat := 0x0000

/-- The `COVERING_TYPES` table, with the handler's fallback name. -/
def coveringTypeName (value : Int) : String :=
  if value = 0 then "rollershade"
  else if value = 1 then "rollershade_2_motor"
  else if value = 2 then "rollershade_exterior"
  else if value = 3 then "rollershade_exterior_2_motor"
  else if value = 4 then "drapery"
  else if value = 5 then "awning"
  else if value = 6 then "shutter"
  else if value = 7 then "tilt_blind_tilt_only"
  else if value = 8 then "tilt_blind_lift_and_tilt"
  else if value = 9 then "projector_screen"
  else "unknown_" ++ toString value

/-- Wire value sent by `set_position`: the handler inverts the UI percentage
(`zigbee_value = 100 - int(position)`) before `go_to_lift_percentage`. -/
def set_position_wire (position : Int) : Int :=
  100 - position

/-- State update produced by `attribute_updated` for a numeric report.
Mirrors the three attribute branches of the source method; the returned list
is the dict passed to `device.update_state`. -/
def attribute_updated (attrid : Nat) (value : Int) : List (String × PyVal) :=
  if attrid = ATTR_CURRENT_POSITION_LIFT_PCT then
    [ ("position", .vi (100 - value)),
      ("cover_position", .vi (100 - value)),
      ("is_closed", .vb (value = 100)),
      ("is_open", .vb (value = 0)) ]
  else if attrid = ATTR_CURRENT_POSITION_TILT_PCT then
    [ ("tilt_position", .vi value) ]
  else if attrid = ATTR_COVERING_TYPE then
    [ ("cover_type", .vs (coveringTypeName value)) ]
  else []

end Blinds

namespace Power

/-! Embedding of `ElectricalMeasurementHandler` (src/handlers/power.py). -/

/-- Cluster-local scaling state, fields in the order `__init__` sets them. -/
structure EMScaling where
  power_multiplier : Rat
  power_divisor : Rat
  voltage_multiplier : Rat
  voltage_divisor : Rat
  current_multiplier : Rat
  current_divisor : Rat
deriving DecidableEq

/-- Initial scaling state from `__init__`: everything 1 except the current
divisor, which starts at 1000. -/
def em_init : EMScaling :=
  { power_multiplier := 1, power_divisor := 1,
    voltage_multiplier := 1, voltage_divisor := 1,
    current_multiplier := 1, current_divisor := 1000 }

/-- Python `value or 1` on a number: zero (falsy) becomes 1. -/
def orOne (v : Rat) : Rat :=
  if v = 0 then 1 else v

/-- Lookup in the scaling read result (a dict keyed by attribute name),
modelling `data.get(key, 1) or 1`. -/
def scalingGet (data : List (String × Rat)) (key : String) : Rat :=
  match data.find? (fun kv => kv.1 = key) with
  | some kv => orOne kv.2
  | none => 1

/-- Effect of `configure()` on the scaling state.  `readResult = none` models
a failed or empty read of the six scaling attributes (the exception is caught
and the state is left as it was); `some data` models a successful read. -/
def em_configure (s : EMScaling) (readResult : Option (List (String × Rat))) : EMScaling :=
  match readResult with
  | none => s
  | some data =>
    { voltage_multiplier := scalingGet data "ac_voltage_multiplier",
      voltage_divisor := scalingGet data "ac_voltage_divisor",
      current_multiplier := scalingGet data "ac_current_multiplier",
      current_divisor := scalingGet data "ac_current_divisor",
      power_multiplier := scalingGet data "ac_power_multiplier",
      power_divisor := scalingGet data "ac_power_divisor" }

/-- Attribute ids used by the handler. -/
def ATTR_ACTIVE_POWER : Nat := 0x050B

/-- Attribute id of `rms_voltage`. -/
def ATTR_RMS_VOLTAGE : Nat := 0x0505

/-- Attribute id of `rms_current`. -/
def ATTR_RMS_CURRENT : Nat := 0x0508

/-- Attribute id of `ac_power_multiplier`. -/
def ATTR_AC_POWER_MULTIPLIER : Nat := 0x0604

/-- Attribute id of `ac_power_divisor`. -/
def ATTR_AC_POWER_DIVISOR : Nat := 0x0605

/-- Attribute id of `ac_voltage_multiplier`. -/
def ATTR_AC_VOLTAGE_MULTIPLIER : Nat := 0x0600

/-- Attribute id of `ac_voltage_divisor`. -/
def ATTR_AC_VOLTAGE_DIVISOR : Nat := 0x0601

/-- Attribute id of `ac_current_multiplier`. -/
def ATTR_AC_CURRENT_MULTIPLIER : Nat := 0x0602

/-- Attribute id of `ac_current_divisor`. -/
def ATTR_AC_CURRENT_DIVISOR : Nat := 0x0603

/-- Embedding of `attribute_updated`: returns the new scaling state and the
dict handed to `device.update_state` (empty when no state key is emitted).
`ep` is the endpoint id used in the state-key suffix. -/
def em_attribute_updated (s : EMScaling) (attrid : Nat) (value : Rat) (ep : Nat) :
    EMScaling × List (String × PyVal) :=
  if attrid = ATTR_ACTIVE_POWER then
    (s, [("power_" ++ toString ep, .vf (pyRound (value * s.power_multiplier / s.power_divisor) 1))])
  else if attrid = ATTR_RMS_VOLTAGE then
    (s, [("voltage_" ++ toString ep, .vf (pyRound (value * s.voltage_multiplier / s.voltage_divisor) 1))])
  else if attrid = ATTR_RMS_CURRENT then
    (s, [("current_" ++ toString ep, .vf (pyRound (value * s.current_multiplier / s.current_divisor) 3))])
  else if attrid = ATTR_AC_POWER_MULTIPLIER then ({ s with power_multiplier := orOne value }, [])
  else if attrid = ATTR_AC_POWER_DIVISOR then ({ s with power_divisor := orOne value }, [])
  else if attrid = ATTR_AC_VOLTAGE_MULTIPLIER then ({ s with voltage_multiplier := orOne value }, [])
  else if attrid = ATTR_AC_VOLTAGE_DIVISOR then ({ s with voltage_divisor := orOne value }, [])
  else if attrid = ATTR_AC_CURRENT_MULTIPLIER then ({ s with current_multiplier := orOne value }, [])
  else if attrid = ATTR_AC_CURRENT_DIVISOR then ({ s with current_divisor := orOne value }, [])
  else (s, [])

end Power

namespace Zones

/-! Embedding of `ZonesMessageHandler` (src/handlers/zones_handler.py). -/

/-- The source computes `int(-100 + (lqi / 255) * 70)` in Python floats; on
lqi 0..255 the doubles round to the same integer as the exact rationals do,
so the embedding uses exact arithmetic. -/
def lqi_to_rssi (lqi : Nat) : Int :=
  pyTrunc (-100 + ((lqi : Rat) / 255) * 70)

/-- The source computes `lqi = int((rssi + 100) * 255 / 70)` and then clamps
with `max(0, min(255, lqi))`. -/
def rssi_to_lqi (rssi : Int) : Int :=
  max 0 (min 255 (pyTrunc (((rssi : Rat) + 100) * 255 / 70)))

/-- Link sample recorded by `handle_message` once a source device and the
coordinator are resolved: when only one of rssi/lqi is present the other is
derived, when both are absent the handler returns before recording. -/
def handle_message_sample (rssi : Option Int) (lqi : Option Nat) : Option (Int × Int) :=
  match rssi, lqi with
  | none, none => none
  | none, some l => some (lqi_to_rssi l, l)
  | some r, none => some (r, rssi_to_lqi r)
  | some r, some l => some (r, l)

/-- Spec-side formula, as written: `rssi = -100 + (lqi/255)*70`. -/
def rssiLinearFormula (lqi : Nat) : Rat :=
  -100 + ((lqi : Rat) / 255) * 70

/-- Spec-side formula, as written: `lqi = (rssi+100)*255/70` before clamping. -/
def lqiLinearFormula (rssi : Int) : Rat :=
  ((rssi : Rat) + 100) * 255 / 70

/-- Spec-side clamp to an interval. -/
def ratClamp (lo hi q : Rat) : Rat :=
  max lo (min hi q)

end Zones

/-! Theorems for claims C4, C5 and C9. -/

/-- C4: window-covering round trip — for every position `p` in 0..100,
`set_position(p)` invokes `go_to_lift_percentage` with wire value `100 - p`;
for every inbound raw lift-percentage report `r`, `attribute_updated`
surfaces `position = 100 - r`, asserts `is_closed` exactly when `r = 100`,
and asserts `is_open` exactly when `r = 0`. -/
theorem C4_window_covering_round_trip (p r : Int) (hp0 : 0 ≤ p) (hp1 : p ≤ 100) :
    Blinds.set_position_wire p = 100 - p ∧
    getKey (Blinds.attribute_updated Blinds.ATTR_CURRENT_POSITION_LIFT_PCT r) "position"
      = some (.vi (100 - r)) ∧
    (getKey (Blinds.attribute_updated Blinds.ATTR_CURRENT_POSITION_LIFT_PCT r) "is_closed"
      = some (.vb true) ↔ r = 100) ∧
    (getKey (Blinds.attribute_updated Blinds.ATTR_CURRENT_POSITION_LIFT_PCT r) "is_open"
      = some (.vb true) ↔ r = 0) := by
  refine ⟨rfl, ?_, ?_, ?_⟩ <;>
    simp [Blinds.attribute_updated, Blinds.ATTR_CURRENT_POSITION_LIFT_PCT,
      Blinds.ATTR_CURRENT_POSITION_TILT_PCT, getKey]

/-- Witness for C4 at `p = 30`, `r = 70`. -/
theorem C4_window_covering_round_trip_witness :
    (0 : Int) ≤ 30 ∧ (30 : Int) ≤ 100 ∧
    Blinds.set_position_wire 30 = 70 ∧
    getKey (Blinds.attribute_updated Blinds.ATTR_CURRENT_POSITION_LIFT_PCT 70) "position"
      = some (.vi 30) := by
  refine ⟨by decide, by decide, ?_, ?_⟩
  · exact (C4_window_covering_round_trip 30 70 (by decide) (by decide)).1
  · exact (C4_window_covering_round_trip 30 70 (by decide) (by decide)).2.1

/-- C5 counterexample: after a failed scaling read the six factors are *not*
all 1 — `__init__` sets the current divisor to 1000 and a failed `configure()`
leaves it there, refuting the claim as stated. -/
theorem C5_counterexample_current_divisor :
    ¬ ((Power.em_configure Power.em_init none).power_multiplier = 1 ∧
       (Power.em_configure Power.em_init none).power_divisor = 1 ∧
       (Power.em_configure Power.em_init none).voltage_multiplier = 1 ∧
       (Power.em_configure Power.em_init none).voltage_divisor = 1 ∧
       (Power.em_configure Power.em_init none).current_multiplier = 1 ∧
       (Power.em_configure Power.em_init none).current_divisor = 1) := by
  intro h
  have h6 := h.2.2.2.2.2
  simp only [Power.em_configure, Power.em_init] at h6
  norm_num at h6

/-- C5 amended: if `configure()` fails to read the six scaling attributes,
the voltage and power multipliers and divisors and the current multiplier
remain 1 while the current divisor keeps its constructor default 1000; a
subsequent raw active-power report of 2345 is emitted as `power = 2345.0`. -/
theorem C5_em_failed_configure_defaults (ep : Nat) :
    Power.em_configure Power.em_init none = Power.em_init ∧
    Power.em_init.power_multiplier = 1 ∧
    Power.em_init.power_divisor = 1 ∧
    Power.em_init.voltage_multiplier = 1 ∧
    Power.em_init.voltage_divisor = 1 ∧
    Power.em_init.current_multiplier = 1 ∧
    Power.em_init.current_divisor = 1000 ∧
    (Power.em_attribute_updated (Power.em_configure Power.em_init none)
        Power.ATTR_ACTIVE_POWER 2345 ep).2
      = [("power_" ++ toString ep, .vf 2345)] := by
  refine ⟨rfl, rfl, rfl, rfl, rfl, rfl, rfl, ?_⟩
  simp only [Power.em_configure, Power.em_attribute_updated, Power.em_init,
    Power.ATTR_ACTIVE_POWER, if_pos]
  have : pyRound ((2345 : Rat) * 1 / 1) 1 = 2345 := by
    unfold pyRound roundHalfEven
    norm_num
  rw [this]

/-- C9 counterexample: at `lqi = 1` the recorded rssi is the truncated value
`-99`, which differs from the exact linear formula `-100 + (1/255)*70`. -/
theorem C9_counterexample_lqi1 :
    Zones.handle_message_sample none (some 1) = some (-99, 1) ∧
    ((-99 : Rat) ≠ Zones.rssiLinearFormula 1) := by
  constructor
  · show some (Zones.lqi_to_rssi 1, 1) = some (-99, 1)
    have : Zones.lqi_to_rssi 1 = -99 := by
      unfold Zones.lqi_to_rssi pyTrunc
      norm_num [Int.ceil_eq_iff]
    rw [this]
  · unfold Zones.rssiLinearFormula
    norm_num

/-- The derived rssi brackets the spec linear formula from above within 1:
truncation toward zero of a negative value is its ceiling. -/
theorem lqi_to_rssi_bounds (l : Nat) (hl : l ≤ 255) :
    Zones.rssiLinearFormula l ≤ (Zones.lqi_to_rssi l : Rat) ∧
    ((Zones.lqi_to_rssi l : Rat) < Zones.rssiLinearFormula l + 1) := by
  have hlq : ((l : Rat) / 255) * 70 ≤ 70 := by
    rw [div_mul_eq_mul_div, div_le_iff (by norm_num : (0 : Rat) < 255)]
    have : (l : Rat) ≤ 255 := by exact_mod_cast hl
    nlinarith
  have hneg : Zones.rssiLinearFormula l < 0 := by
    unfold Zones.rssiLinearFormula
    linarith
  have heq : Zones.lqi_to_rssi l = ⌈Zones.rssiLinearFormula l⌉ := by
    unfold Zones.lqi_to_rssi pyTrunc Zones.rssiLinearFormula
    rw [if_pos]
    exact hneg
  rw [heq]
  exact ⟨Int.le_ceil _, Int.ceil_lt_add_one _⟩

/-- The derived lqi brackets the clamped spec linear formula within 1. -/
theorem rssi_to_lqi_bounds (r : Int) :
    Zones.ratClamp 0 255 (Zones.lqiLinearFormula r) - 1 < (Zones.rssi_to_lqi r : Rat) ∧
    ((Zones.rssi_to_lqi r : Rat) ≤ Zones.ratClamp 0 255 (Zones.lqiLinearFormula r)) := by
  set x := Zones.lqiLinearFormula r with hx
  have hcast : ((Zones.rssi_to_lqi r : Int) : Rat)
      = max 0 (min 255 ((pyTrunc x : Int) : Rat)) := by
    unfold Zones.rssi_to_lqi
    push_cast
    rfl
  rw [hcast]
  unfold Zones.ratClamp
  rcases lt_or_le x 0 with hneg | hpos
  · have ht : pyTrunc x = ⌈x⌉ := by unfold pyTrunc; rw [if_pos hneg]
    have hceil : ((⌈x⌉ : Int) : Rat) ≤ 0 := by
      have : ⌈x⌉ ≤ (0 : Int) := Int.ceil_le.mpr (by exact_mod_cast hneg.le)
      exact_mod_cast this
    rw [ht, min_eq_right (le_trans hceil (by norm_num)),
        max_eq_left hceil, min_eq_right (le_trans hneg.le (by norm_num)),
        max_eq_left hneg.le]
    norm_num
  · have ht : pyTrunc x = ⌊x⌋ := by
      unfold pyTrunc
      rw [if_neg (not_lt.mpr hpos)]
    have h0 : (0 : Rat) ≤ ((⌊x⌋ : Int) : Rat) := by
      have : (0 : Int) ≤ ⌊x⌋ := Int.floor_nonneg.mpr hpos
      exact_mod_cast this
    have hfle : ((⌊x⌋ : Int) : Rat) ≤ x := Int.floor_le x
    have hflt : x < ((⌊x⌋ : Int) : Rat) + 1 := Int.lt_floor_add_one x
    rw [ht]
    rcases le_or_lt 255 ((⌊x⌋ : Int) : Rat) with hbig | hsmall
    · have hx255 : (255 : Rat) ≤ x := le_trans hbig hfle
      rw [min_eq_left hbig, min_eq_left hx255, max_eq_right (by norm_num : (0:Rat) ≤ 255)]
      norm_num
    · have hxlt : x < 256 := by linarith
      rw [min_eq_right hsmall.le, max_eq_right h0]
      rcases le_or_lt 255 x with hx255 | hx255
      · rw [min_eq_left hx255, max_eq_right (by norm_num : (0:Rat) ≤ 255)]
        constructor <;> linarith
      · rw [min_eq_right hx255.le, max_eq_right hpos]
        constructor <;> linarith

/-- C9 amended: whenever a link sample carries only one of rssi and lqi,
the intake derives the other from the spec linear formula by truncation
toward zero (Python `int`), with the lqi additionally clamped to 0..255: the
derived value is always within 1 of the formula value, before recording. -/
theorem C9_link_quality_derivation (l : Nat) (r : Int) (hl : l ≤ 255) :
    Zones.handle_message_sample none (some l) = some (Zones.lqi_to_rssi l, (l : Int)) ∧
    Zones.rssiLinearFormula l ≤ (Zones.lqi_to_rssi l : Rat) ∧
    ((Zones.lqi_to_rssi l : Rat) < Zones.rssiLinearFormula l + 1) ∧
    Zones.handle_message_sample (some r) none = some (r, Zones.rssi_to_lqi r) ∧
    Zones.ratClamp 0 255 (Zones.lqiLinearFormula r) - 1 < (Zones.rssi_to_lqi r : Rat) ∧
    ((Zones.rssi_to_lqi r : Rat) ≤ Zones.ratClamp 0 255 (Zones.lqiLinearFormula r)) := by
  exact ⟨rfl, (lqi_to_rssi_bounds l hl).1, (lqi_to_rssi_bounds l hl).2, rfl,
    (rssi_to_lqi_bounds r).1, (rssi_to_lqi_bounds r).2⟩

/-- Witness for C9 at `lqi = 200`, `rssi = -80`. -/
theorem C9_link_quality_derivation_witness :
    (200 : Nat) ≤ 255 ∧
    Zones.handle_message_sample none (some 200) = some (Zones.lqi_to_rssi 200, (200 : Int)) := by
  exact ⟨by decide, (C9_link_quality_derivation 200 (-80) (by decide)).1⟩

namespace FastPath

/-! Embedding of `FastPathProcessor` (src/handlers/fast_path.py). -/

/-- ZCL Report Attributes command id. -/
def CMD_REPORT_ATTRIBUTES : Nat := 0x0A

/-- ZCL Boolean data type. -/
def DATA_TYPE_BOOL : Nat := 0x10

/-- ZCL Bitmap8 data type. -/
def DATA_TYPE_BITMAP8 : Nat := 0x18

/-- Per-device state: normalised state dict plus `last_seen` (unix ms). -/
structure Device where
  state : StateMap
  last_seen : Nat
deriving DecidableEq

/-- The gateway's device registry `ieee → device` (`self.service.devices`). -/
abbrev DeviceRegistry := List (String × Device)

/-- Registry lookup (`ieee in self.service.devices` / indexing). -/
def getDevice (devices : DeviceRegistry) (ieee : String) : Option Device :=
  match devices with
  | [] => none
  | (k, d) :: rest => if k = ieee then some d else getDevice rest ieee

/-- Registry update in place. -/
def setDevice (devices : DeviceRegistry) (ieee : String) (d : Device) : DeviceRegistry :=
  match devices with
  | [] => [(ieee, d)]
  | (k, d₂) :: rest =>
    if k = ieee then (k, d) :: rest else (k, d₂) :: setDevice rest ieee d

/-- Service surface the processor touches: the registry and whether an MQTT
client with `publish_fast` is attached. -/
structure Service where
  devices : DeviceRegistry
  mqttFast : Bool
deriving DecidableEq

/-- Fast-path MQTT message: state topic and the JSON payload dict.  Topic
naming (`get_safe_name`) is outside the decoder; the ieee stands for the
safe name here. -/
structure Publish where
  topic : String
  payload : List (String × PyVal)
deriving DecidableEq

/-- The `_get_data_type_size` table: size in bytes of a ZCL data type, the
length-prefixed size for octet/char strings, `-1` for unknown types. -/
def get_data_type_size (data_type : Nat) (message : List Nat) (idx : Nat) : Int :=
  if data_type = 0x00 then 0
  else if data_type = 0x10 then 1
  else if data_type = 0x18 then 1
  else if data_type = 0x19 then 2
  else if data_type = 0x1A then 3
  else if data_type = 0x1B then 4
  else if data_type = 0x20 then 1
  else if data_type = 0x21 then 2
  else if data_type = 0x22 then 3
  else if data_type = 0x23 then 4
  else if data_type = 0x28 then 1
  else if data_type = 0x29 then 2
  else if data_type = 0x2B then 4
  else if data_type = 0x30 then 1
  else if data_type = 0x31 then 2
  else if data_type = 0x39 then 2
  else if data_type = 0x3A then 4
  else if data_type = 0x41 ∨ data_type = 0x42 then
    if idx < message.length then 1 + (message.getD idx 0 : Int) else -1
  else -1

/-- The attribute-record scan loop of `_fast_path_generic_attribute`:
starting at `idx`, walk `AttrID(2,le) + Type(1) + Value` records; on the
target attribute with Boolean/Bitmap8 type return the low bit of the value
byte; stop on truncation or an unknown type.  Indexing uses `getD` with
default 0; the loop guards keep every read in bounds. -/
def scanReportAttrs (message : List Nat) (target : Nat) (idx : Nat) : Option Bool :=
  if h : idx + 3 ≤ message.length then
    let attr_id := message.getD idx 0 + 256 * message.getD (idx + 1) 0
    let data_type := message.getD (idx + 2) 0
    if attr_id = target ∧ (data_type = DATA_TYPE_BOOL ∨ data_type = DATA_TYPE_BITMAP8)
        ∧ idx + 3 < message.length then
      some ((message.getD (idx + 3) 0 &&& 0x01) != 0)
    else if message.length ≤ idx + 3 then
      none
    else
      let data_size := get_data_type_size data_type message (idx + 3)
      if data_size < 0 then none
      else scanReportAttrs message target (idx + 3 + data_size.toNat)
  else none
termination_by message.length - idx
decreasing_by omega

/-- Parse step of `_fast_path_generic_attribute`: requires a 3-byte ZCL
header and the Report Attributes command, then scans records from index 3.
Returns the decoded active flag when a matching record is found. -/
def fast_path_generic_attribute (message : List Nat) (target_attr_id : Nat) : Option Bool :=
  if message.length < 3 then none
  else if message.getD 2 0 ≠ CMD_REPORT_ATTRIBUTES then none
  else scanReportAttrs message target_attr_id 3

/-- Parse step of `_fast_path_ias_zone`: a frame of at least 5 bytes whose
command byte is `0x00` yields the little-endian 16-bit zone status. -/
def fast_path_ias_zone_status (message : List Nat) : Option Nat :=
  if message.length < 5 then none
  else if message.getD 2 0 = 0x00 then
    some (message.getD 3 0 + 256 * message.getD 4 0)
  else none

/-- The fast path's `alarm1 = bool(zone_status & 0x01)`. -/
def fp_ias_alarm1 (zone_status : Nat) : Bool :=
  (zone_status &&& 0x01) != 0

/-- The fast path's `alarm2 = bool(zone_status & 0x02)`. -/
def fp_ias_alarm2 (zone_status : Nat) : Bool :=
  (zone_status &&& 0x02) != 0

/-- The fast path's `tamper = bool(zone_status & 0x08)`. -/
def fp_ias_tamper (zone_status : Nat) : Bool :=
  (zone_status &&& 0x08) != 0

/-- The fast path's `battery_low = bool(zone_status & 0x20)`. -/
def fp_ias_battery_low (zone_status : Nat) : Bool :=
  (zone_status &&& 0x20) != 0

/-- The DP-record loop of `_fast_path_tuya`.  Result `some p` is normal
termination with `presence_value = p`; result `none` is the `IndexError`
raised by `dp_data[0]` on an empty DP payload, caught by the method's
`except` (the frame then counts as a parse error, not a hit). -/
def tuyaScanDPs (message : List Nat) (idx : Nat) (presence : Option Bool) :
    Option (Option Bool) :=
  if h : idx + 4 ≤ message.length then
    let dp_id := message.getD idx 0
    let dp_type := message.getD (idx + 1) 0
    let dp_len := 256 * message.getD (idx + 2) 0 + message.getD (idx + 3) 0
    if message.length < idx + 4 + dp_len then some presence
    else
      let dp_data := (message.drop (idx + 4)).take dp_len
      let step : Option (Option Bool) :=
        if dp_id = 1 then
          if dp_type = 0x04 ∧ dp_len = 1 then some (some (dp_data.getD 0 0 > 0))
          else if dp_type = 0x01 then
            if dp_len = 0 then none
            else some (some (dp_data.getD 0 0 != 0))
          else some presence
        else if dp_id = 104 then
          if dp_type = 0x01 ∧ dp_len = 1 then some (some (dp_data.getD 0 0 != 0))
          else some presence
        else some presence
      match step with
      | none => none
      | some p => tuyaScanDPs message (idx + 4 + dp_len) p
  else some presence
termination_by message.length - idx
decreasing_by omega

/-- Parse step of `_fast_path_tuya`: needs 7 bytes, a DP-carrying command
(`0x01/0x02/0x06`), and a presence-bearing DP (id 1 or 104); the first DP
record starts at index 6. -/
def fast_path_tuya (message : List Nat) : Option Bool :=
  if message.length < 7 then none
  else if ¬(message.getD 2 0 = 0x01 ∨ message.getD 2 0 = 0x02 ∨ message.getD 2 0 = 0x06) then
    none
  else
    match tuyaScanDPs message 6 none with
    | none => none
    | some none => none
    | some (some p) => some p

end FastPath

namespace FastPath

/-- Embedding of `_emit_motion_immediate`: unknown senders are dropped
before any mutation; otherwise the three occupancy keys are set, `last_seen`
is stamped, and a QoS-0 MQTT state message goes out when the fast publisher
is attached.  Returns the service after the event plus the publishes. -/
def emit_motion_immediate (svc : Service) (ieee : String) (occupied : Bool) (nowMs : Nat) :
    Service × List Publish :=
  match getDevice svc.devices ieee with
  | none => (svc, [])
  | some device =>
    let device₂ : Device :=
      { state := setKeys device.state
          [("occupancy", .vb occupied), ("motion", .vb occupied), ("presence", .vb occupied)],
        last_seen := nowMs }
    let svc₂ : Service := { svc with devices := setDevice svc.devices ieee device₂ }
    let pubs := if svc.mqttFast then
        [⟨ieee ++ "/state",
          [("occupancy", .vb occupied), ("motion", .vb occupied), ("presence", .vb occupied)]⟩]
      else []
    (svc₂, pubs)

/-- Embedding of `_emit_presence_immediate` in the `distance = None` form the
Tuya fast path uses. -/
def emit_presence_immediate (svc : Service) (ieee : String) (present : Bool) (nowMs : Nat) :
    Service × List Publish :=
  match getDevice svc.devices ieee with
  | none => (svc, [])
  | some device =>
    let device₂ : Device :=
      { state := setKeys device.state
          [("presence", .vb present), ("state", .vb present), ("occupancy", .vb present)],
        last_seen := nowMs }
    let svc₂ : Service := { svc with devices := setDevice svc.devices ieee device₂ }
    let pubs := if svc.mqttFast then
        [⟨ieee ++ "/state",
          [("presence", .vb present), ("state", .vb present), ("occupancy", .vb present)]⟩]
      else []
    (svc₂, pubs)

/-- Embedding of `_emit_ias_zone_immediate`. -/
def emit_ias_zone_immediate (svc : Service) (ieee : String) (zone_status : Nat)
    (alarm tamper battery_low : Bool) (nowMs : Nat) : Service × List Publish :=
  match getDevice svc.devices ieee with
  | none => (svc, [])
  | some device =>
    let device₂ : Device :=
      { state := setKeys device.state
          [("zone_status", .vi zone_status), ("contact", .vb (!alarm)),
           ("tamper", .vb tamper), ("battery_low", .vb battery_low)],
        last_seen := nowMs }
    let svc₂ : Service := { svc with devices := setDevice svc.devices ieee device₂ }
    let pubs := if svc.mqttFast then
        [⟨ieee ++ "/state",
          [("contact", .vb (!alarm)), ("tamper", .vb tamper),
           ("battery_low", .vb battery_low)]⟩]
      else []
    (svc₂, pubs)

/-- Result of one `process_frame` call: the returned boolean, the service
afterwards, the fast publishes, and the `fast_path_hits` counter. -/
structure FPResult where
  hit : Bool
  service : Service
  published : List Publish
  fast_path_hits : Nat
deriving DecidableEq

/-- Embedding of `process_frame`: profile gate, then per-cluster dispatch;
the source emits from inside the parsers, which factors here into parse
followed by emit with identical observable effect. -/
def process_frame (svc : Service) (hits : Nat) (ieee : String) (profile cluster : Nat)
    (message : List Nat) (nowMs : Nat) : FPResult :=
  if profile ≠ 0x0104 then ⟨false, svc, [], hits⟩
  else if cluster = 0x0406 then
    match fast_path_generic_attribute message 0x0000 with
    | some occ =>
      let r := emit_motion_immediate svc ieee occ nowMs
      ⟨true, r.1, r.2, hits + 1⟩
    | none => ⟨false, svc, [], hits⟩
  else if cluster = 0x0006 then
    match fast_path_generic_attribute message 0x0000 with
    | some occ =>
      let r := emit_motion_immediate svc ieee occ nowMs
      ⟨true, r.1, r.2, hits + 1⟩
    | none => ⟨false, svc, [], hits⟩
  else if cluster = 0xEF00 then
    match fast_path_tuya message with
    | some p =>
      let r := emit_presence_immediate svc ieee p nowMs
      ⟨true, r.1, r.2, hits + 1⟩
    | none => ⟨false, svc, [], hits⟩
  else if cluster = 0x0500 then
    match fast_path_ias_zone_status message with
    | some zs =>
      let r := emit_ias_zone_immediate svc ieee zs
        (fp_ias_alarm1 zs) (fp_ias_tamper zs) (fp_ias_battery_low zs) nowMs
      ⟨true, r.1, r.2, hits + 1⟩
    | none => ⟨false, svc, [], hits⟩
  else ⟨false, svc, [], hits⟩

end FastPath

namespace Security

/-! Embedding of `IASZoneHandler` (src/handlers/security.py). -/

/-- IAS zone status bit for alarm 1. -/
def ALARM1 : Nat := 0x0001

/-- IAS zone status bit for alarm 2. -/
def ALARM2 : Nat := 0x0002

/-- IAS zone status bit for tamper. -/
def TAMPER : Nat := 0x0004

/-- IAS zone status bit for low battery. -/
def BATTERY_LOW : Nat := 0x0008

/-- IAS zone status bit for trouble. -/
def TROUBLE : Nat := 0x0040

/-- Embedding of `_handle_zone_status_change`: the state-update dict built
for a 16-bit zone status, keyed by the handler's zone type (defaulting to
motion sensor `0x000D` when unknown), in dict-insertion order. -/
def handle_zone_status_change (zoneTypeRead : Option Nat) (status : Nat) :
    List (String × PyVal) :=
  let alarm1 := (status &&& ALARM1) != 0
  let tamper := (status &&& TAMPER) != 0
  let battery_low := (status &&& BATTERY_LOW) != 0
  let trouble := (status &&& TROUBLE) != 0
  let base : List (String × PyVal) :=
    [("zone_status", .vi status), ("tamper", .vb tamper),
     ("battery_low", .vb battery_low), ("trouble", .vb trouble)]
  let zone_type := zoneTypeRead.getD 0x000D
  if zone_type = 0x0015 then
    base ++ [("contact", .vb (!alarm1)), ("is_open", .vb alarm1)]
  else if zone_type = 0x000D ∨ zone_type = 0x0000 then
    base ++ [("occupancy", .vb alarm1), ("motion", .vb alarm1), ("presence", .vb alarm1)]
  else if zone_type = 0x002A then base ++ [("water_leak", .vb alarm1)]
  else if zone_type = 0x0028 then base ++ [("smoke", .vb alarm1)]
  else if zone_type = 0x002B then base ++ [("co_detected", .vb alarm1)]
  else if zone_type = 0x002C then base ++ [("vibration", .vb alarm1)]
  else base ++ [("alarm", .vb alarm1), ("occupancy", .vb alarm1), ("motion", .vb alarm1)]

end Security

/-- Setting a key makes it readable. -/
theorem getKey_setKey_same (m : StateMap) (k : String) (v : PyVal) :
    getKey (setKey m k v) k = some v := by
  induction m with
  | nil => simp [setKey, getKey]
  | cons kv rest ih =>
    obtain ⟨k₂, v₂⟩ := kv
    by_cases h : k₂ = k <;> simp [setKey, getKey, h, ih]

/-- Setting one key leaves the others unchanged. -/
theorem getKey_setKey_ne (m : StateMap) (k k₂ : String) (v : PyVal) (h : k₂ ≠ k) :
    getKey (setKey m k₂ v) k = getKey m k := by
  induction m with
  | nil => simp [setKey, getKey, h]
  | cons kv rest ih =>
    obtain ⟨k₃, v₃⟩ := kv
    by_cases h₃ : k₃ = k₂
    · subst h₃
      simp [setKey, getKey, h]
    · simp only [setKey, if_neg h₃]
      by_cases h₄ : k₃ = k <;> simp [getKey, h₄, ih]

namespace FastPath

/-- Registry update makes the device readable. -/
theorem getDevice_setDevice_same (ds : DeviceRegistry) (ieee : String) (d : Device) :
    getDevice (setDevice ds ieee d) ieee = some d := by
  induction ds with
  | nil => simp [setDevice, getDevice]
  | cons kv rest ih =>
    obtain ⟨k₂, d₂⟩ := kv
    by_cases h : k₂ = ieee <;> simp [setDevice, getDevice, h, ih]

/-- A sender missing from the registry produces no mutation and no publish
in `_emit_motion_immediate`. -/
theorem emit_motion_immediate_unregistered (svc : Service) (ieee : String) (occ : Bool)
    (nowMs : Nat) (h : getDevice svc.devices ieee = none) :
    emit_motion_immediate svc ieee occ nowMs = (svc, []) := by
  unfold emit_motion_immediate
  rw [h]

/-- A sender missing from the registry produces no mutation and no publish
in `_emit_presence_immediate`. -/
theorem emit_presence_immediate_unregistered (svc : Service) (ieee : String) (p : Bool)
    (nowMs : Nat) (h : getDevice svc.devices ieee = none) :
    emit_presence_immediate svc ieee p nowMs = (svc, []) := by
  unfold emit_presence_immediate
  rw [h]

/-- A sender missing from the registry produces no mutation and no publish
in `_emit_ias_zone_immediate`. -/
theorem emit_ias_zone_immediate_unregistered (svc : Service) (ieee : String) (zs : Nat)
    (a t b : Bool) (nowMs : Nat) (h : getDevice svc.devices ieee = none) :
    emit_ias_zone_immediate svc ieee zs a t b nowMs = (svc, []) := by
  unfold emit_ias_zone_immediate
  rw [h]

end FastPath


/-- After the three occupancy-key assignments every one of them reads back. -/
theorem occupancy_keys_read_back (m : StateMap) (occ : Bool) :
    getKey (setKeys m
      [("occupancy", .vb occ), ("motion", .vb occ), ("presence", .vb occ)]) "occupancy"
      = some (.vb occ) ∧
    getKey (setKeys m
      [("occupancy", .vb occ), ("motion", .vb occ), ("presence", .vb occ)]) "motion"
      = some (.vb occ) ∧
    getKey (setKeys m
      [("occupancy", .vb occ), ("motion", .vb occ), ("presence", .vb occ)]) "presence"
      = some (.vb occ) := by
  simp only [setKeys, List.foldl]
  refine ⟨?_, ?_, ?_⟩
  · rw [getKey_setKey_ne _ _ _ _ (by decide), getKey_setKey_ne _ _ _ _ (by decide),
      getKey_setKey_same]
  · rw [getKey_setKey_ne _ _ _ _ (by decide), getKey_setKey_same]
  · rw [getKey_setKey_same]

/-- C8: fast-path occupancy — for a registered device, the frame
`18 01 0A 00 00 18 01` on cluster 0x0406, profile 0x0104 returns True and
sets `occupancy`, `motion` and `presence` to true with `last_seen` stamped
to the processing time; the same frame ending in `00` sets all three to
false. -/
theorem C8_fast_path_occupancy (svc : FastPath.Service) (ieee : String) (d : FastPath.Device)
    (hits nowMs : Nat) (hdev : FastPath.getDevice svc.devices ieee = some d) :
    ((FastPath.process_frame svc hits ieee 0x0104 0x0406
        [0x18, 0x01, 0x0A, 0x00, 0x00, 0x18, 0x01] nowMs).hit = true ∧
     ∃ d₂, FastPath.getDevice (FastPath.process_frame svc hits ieee 0x0104 0x0406
         [0x18, 0x01, 0x0A, 0x00, 0x00, 0x18, 0x01] nowMs).service.devices ieee = some d₂ ∧
       getKey d₂.state "occupancy" = some (.vb true) ∧
       getKey d₂.state "motion" = some (.vb true) ∧
       getKey d₂.state "presence" = some (.vb true) ∧
       d₂.last_seen = nowMs) ∧
    ((FastPath.process_frame svc hits ieee 0x0104 0x0406
        [0x18, 0x01, 0x0A, 0x00, 0x00, 0x18, 0x00] nowMs).hit = true ∧
     ∃ d₃, FastPath.getDevice (FastPath.process_frame svc hits ieee 0x0104 0x0406
         [0x18, 0x01, 0x0A, 0x00, 0x00, 0x18, 0x00] nowMs).service.devices ieee = some d₃ ∧
       getKey d₃.state "occupancy" = some (.vb false) ∧
       getKey d₃.state "motion" = some (.vb false) ∧
       getKey d₃.state "presence" = some (.vb false) ∧
       d₃.last_seen = nowMs) := by
  have hon : FastPath.fast_path_generic_attribute
      [0x18, 0x01, 0x0A, 0x00, 0x00, 0x18, 0x01] 0x0000 = some true := by
    simp [FastPath.fast_path_generic_attribute, FastPath.scanReportAttrs,
      FastPath.CMD_REPORT_ATTRIBUTES, FastPath.DATA_TYPE_BOOL, FastPath.DATA_TYPE_BITMAP8]
  have hoff : FastPath.fast_path_generic_attribute
      [0x18, 0x01, 0x0A, 0x00, 0x00, 0x18, 0x00] 0x0000 = some false := by
    simp [FastPath.fast_path_generic_attribute, FastPath.scanReportAttrs,
      FastPath.CMD_REPORT_ATTRIBUTES, FastPath.DATA_TYPE_BOOL, FastPath.DATA_TYPE_BITMAP8]
  refine ⟨⟨?_, ?_⟩, ?_, ?_⟩
  · simp [FastPath.process_frame, hon]
  · refine ⟨⟨setKeys d.state
      [("occupancy", .vb true), ("motion", .vb true), ("presence", .vb true)], nowMs⟩,
      ?_, (occupancy_keys_read_back d.state true).1,
      (occupancy_keys_read_back d.state true).2.1,
      (occupancy_keys_read_back d.state true).2.2, rfl⟩
    simp [FastPath.process_frame, hon, FastPath.emit_motion_immediate, hdev,
      FastPath.getDevice_setDevice_same]
  · simp [FastPath.process_frame, hoff]
  · refine ⟨⟨setKeys d.state
      [("occupancy", .vb false), ("motion", .vb false), ("presence", .vb false)], nowMs⟩,
      ?_, (occupancy_keys_read_back d.state false).1,
      (occupancy_keys_read_back d.state false).2.1,
      (occupancy_keys_read_back d.state false).2.2, rfl⟩
    simp [FastPath.process_frame, hoff, FastPath.emit_motion_immediate, hdev,
      FastPath.getDevice_setDevice_same]

/-- Witness for C8 on a one-device registry. -/
theorem C8_fast_path_occupancy_witness :
    FastPath.getDevice [("00124b0001020304", (⟨[], 0⟩ : FastPath.Device))] "00124b0001020304"
      = some (⟨[], 0⟩ : FastPath.Device) ∧
    (FastPath.process_frame ⟨[("00124b0001020304", ⟨[], 0⟩)], true⟩ 7 "00124b0001020304"
        0x0104 0x0406 [0x18, 0x01, 0x0A, 0x00, 0x00, 0x18, 0x01] 999).hit = true := by
  refine ⟨by decide, ?_⟩
  exact (C8_fast_path_occupancy ⟨[("00124b0001020304", ⟨[], 0⟩)], true⟩ "00124b0001020304"
    ⟨[], 0⟩ 7 999 (by decide)).1.1

/-- With an unregistered sender, `process_frame` either misses (returning
the untouched service) or hits with the counter bumped and no effect. -/
theorem process_frame_unregistered_cases (svc : FastPath.Service) (hits nowMs : Nat)
    (ieee : String) (profile cluster : Nat) (message : List Nat)
    (hun : FastPath.getDevice svc.devices ieee = none) :
    FastPath.process_frame svc hits ieee profile cluster message nowMs
      = ⟨false, svc, [], hits⟩ ∨
    FastPath.process_frame svc hits ieee profile cluster message nowMs
      = ⟨true, svc, [], hits + 1⟩ := by
  unfold FastPath.process_frame
  split_ifs with h1 h2 h3 h4 h5
  · exact Or.inl rfl
  · cases hocc : FastPath.fast_path_generic_attribute message 0x0000 with
    | none => exact Or.inl rfl
    | some occ =>
      right
      simp only [FastPath.emit_motion_immediate_unregistered svc ieee occ nowMs hun]
  · cases hocc : FastPath.fast_path_generic_attribute message 0x0000 with
    | none => exact Or.inl rfl
    | some occ =>
      right
      simp only [FastPath.emit_motion_immediate_unregistered svc ieee occ nowMs hun]
  · cases htuya : FastPath.fast_path_tuya message with
    | none => exact Or.inl rfl
    | some p =>
      right
      simp only [FastPath.emit_presence_immediate_unregistered svc ieee p nowMs hun]
  · cases hias : FastPath.fast_path_ias_zone_status message with
    | none => exact Or.inl rfl
    | some zs =>
      right
      simp only [FastPath.emit_ias_zone_immediate_unregistered svc ieee zs _ _ _ nowMs hun]
  · exact Or.inl rfl

/-- C10: a fast-path frame that parses successfully (the call reports a hit)
from a sender missing from the device registry still returns True and bumps
the `fast_path_hits` counter, while the registry is untouched and nothing is
published to MQTT. -/
theorem C10_unregistered_sender_no_effect (svc : FastPath.Service) (hits nowMs : Nat)
    (ieee : String) (profile cluster : Nat) (message : List Nat)
    (hun : FastPath.getDevice svc.devices ieee = none)
    (hhit : (FastPath.process_frame svc hits ieee profile cluster message nowMs).hit = true) :
    (FastPath.process_frame svc hits ieee profile cluster message nowMs).hit = true ∧
    (FastPath.process_frame svc hits ieee profile cluster message nowMs).service = svc ∧
    (FastPath.process_frame svc hits ieee profile cluster message nowMs).published = [] ∧
    (FastPath.process_frame svc hits ieee profile cluster message nowMs).fast_path_hits
      = hits + 1 := by
  rcases process_frame_unregistered_cases svc hits nowMs ieee profile cluster message hun
    with hcase | hcase
  · rw [hcase] at hhit
    exact absurd hhit (by simp)
  · rw [hcase] at hhit ⊢
    exact ⟨hhit, rfl, rfl, rfl⟩

/-- Witness for C10: an occupancy frame from an ieee not in the registry. -/
theorem C10_unregistered_sender_no_effect_witness :
    FastPath.getDevice ([] : FastPath.DeviceRegistry) "deadbeef00000000" = none ∧
    (FastPath.process_frame ⟨[], true⟩ 3 "deadbeef00000000" 0x0104 0x0406
        [0x18, 0x01, 0x0A, 0x00, 0x00, 0x18, 0x01] 50).service = ⟨[], true⟩ := by
  have hhit : (FastPath.process_frame ⟨[], true⟩ 3 "deadbeef00000000" 0x0104 0x0406
      [0x18, 0x01, 0x0A, 0x00, 0x00, 0x18, 0x01] 50).hit = true := by
    have hon : FastPath.fast_path_generic_attribute
        [0x18, 0x01, 0x0A, 0x00, 0x00, 0x18, 0x01] 0x0000 = some true := by
      simp [FastPath.fast_path_generic_attribute, FastPath.scanReportAttrs,
        FastPath.CMD_REPORT_ATTRIBUTES, FastPath.DATA_TYPE_BOOL, FastPath.DATA_TYPE_BITMAP8]
    simp [FastPath.process_frame, hon, FastPath.emit_motion_immediate]
  exact ⟨rfl, (C10_unregistered_sender_no_effect ⟨[], true⟩ 3 50 "deadbeef00000000"
    0x0104 0x0406 [0x18, 0x01, 0x0A, 0x00, 0x00, 0x18, 0x01] rfl hhit).2.1⟩

/-- C2: the fast-path IAS decoder does NOT use the IASZoneHandler bit
layout.  `IASZoneHandler` (and the ZCL zone-status bitmap) puts tamper at
bit 2 (0x0004) and battery-low at bit 3 (0x0008); `_fast_path_ias_zone`
masks with 0x08 and 0x20 instead.  At zone status 0x0004 (tamper set) the
fast path reports `tamper = false` while the handler reports `true`, and a
full `process_frame` of the frame `19 01 00 04 00` on cluster 0x0500 stores
`tamper = false`; at status 0x0008 the two decoders disagree on both flags. -/
theorem C2_ias_bit_layout_divergence :
    FastPath.fp_ias_tamper Security.TAMPER = false ∧
    getKey (Security.handle_zone_status_change (some 0x000D) Security.TAMPER) "tamper"
      = some (.vb true) ∧
    FastPath.fp_ias_battery_low Security.BATTERY_LOW = false ∧
    getKey (Security.handle_zone_status_change (some 0x000D) Security.BATTERY_LOW) "battery_low"
      = some (.vb true) ∧
    FastPath.fp_ias_tamper 0x0008 = true ∧
    FastPath.fp_ias_battery_low 0x0020 = true ∧
    (FastPath.process_frame ⟨[("aabbccdd00112233", ⟨[], 0⟩)], true⟩ 0 "aabbccdd00112233"
        0x0104 0x0500 [0x19, 0x01, 0x00, 0x04, 0x00] 5).hit = true ∧
    FastPath.getDevice (FastPath.process_frame ⟨[("aabbccdd00112233", ⟨[], 0⟩)], true⟩ 0
        "aabbccdd00112233" 0x0104 0x0500 [0x19, 0x01, 0x00, 0x04, 0x00] 5).service.devices
        "aabbccdd00112233"
      = some ⟨[("zone_status", .vi 4), ("contact", .vb true), ("tamper", .vb false),
               ("battery_low", .vb false)], 5⟩ := by
  decide

namespace Automation

/-! Embedding of `AutomationEngine` (src/modules/automation.py). -/

/-- The valid comparison operators (keys of `OPERATORS`). -/
def OPERATORS : List String := ["eq", "neq", "gt", "lt", "gte", "lte"]

/-- `VALID_COMMANDS`: commands valid for automation targets. -/
def VALID_COMMANDS : List String :=
  ["on", "off", "toggle", "brightness", "color_temp", "open", "close", "stop", "position"]

/-- `MAX_RULES_PER_DEVICE`. -/
def MAX_RULES_PER_DEVICE : Nat := 10

/-- `MAX_CONDITIONS_PER_RULE`. -/
def MAX_CONDITIONS_PER_RULE : Nat := 5

/-- `DEFAULT_COOLDOWN` in seconds. -/
def DEFAULT_COOLDOWN : Rat := 5

/-- Value of a nonempty all-digit character list, else `none`. -/
def digitsVal (cs : List Char) : Option Nat :=
  if cs.isEmpty then none
  else cs.foldl (fun acc c =>
    match acc with
    | none => none
    | some n => if c.isDigit then some (n * 10 + (c.toNat - 48)) else none) (some 0)

/-- Python `int(s)` on the plain decimal forms (optional sign, digits); the
exotic syntaxes (whitespace, underscores, bases) never arise in state
values and are outside the model, failing like non-numeric text. -/
def pyIntParse (s : String) : Option Int :=
  match s.toList with
  | [] => none
  | c :: rest =>
    if c = '-' then (digitsVal rest).map (fun n => -(n : Int))
    else if c = '+' then (digitsVal rest).map (fun n => (n : Int))
    else (digitsVal (c :: rest)).map (fun n => (n : Int))

/-- Python `float(s)` on plain decimal forms `[sign] digits [. digits]`
(either digit group may be empty but not both); scientific notation and
special values are outside the model and fail like non-numeric text. -/
def pyFloatParse (s : String) : Option Rat :=
  let core : List Char → Option Rat := fun cs =>
    match cs.splitOn '.' with
    | [intPart, fracPart] =>
      if intPart.isEmpty ∧ fracPart.isEmpty then none
      else if (intPart.all Char.isDigit) ∧ (fracPart.all Char.isDigit) then
        let i := (intPart.foldl (fun n c => n * 10 + (c.toNat - 48)) 0)
        let f := (fracPart.foldl (fun n c => n * 10 + (c.toNat - 48)) 0)
        some (mkRat ((i * 10 ^ fracPart.length + f : Nat) : Int) (10 ^ fracPart.length))
      else none
    | [onlyPart] =>
      if onlyPart.isEmpty then none
      else if onlyPart.all Char.isDigit then
        some ((onlyPart.foldl (fun n c => n * 10 + (c.toNat - 48)) 0 : Nat) : Rat)
      else none
    | _ => none
  match s.toList with
  | [] => none
  | c :: rest =>
    if c = '-' then (core rest).map (fun q => -q)
    else if c = '+' then core rest
    else core (c :: rest)

/-- Embedding of `_normalise_value`: lowercase "true"/"false" become
booleans; strings containing "." go through `float`, others through `int`;
parse failures leave the string unchanged. -/
def normalise_value (v : PyVal) : PyVal :=
  match v with
  | .vs s =>
    let lower := s.toLower
    if lower = "true" then .vb true
    else if lower = "false" then .vb false
    else if s.contains '.' then
      match pyFloatParse s with
      | some q => .vf q
      | none => .vs s
    else
      match pyIntParse s with
      | some n => .vi n
      | none => .vs s
  | v => v

/-- Python `==` on the state-value types: booleans equal their numeric
values, numerics compare by value, strings compare to strings only. -/
def pyEq (a b : PyVal) : Bool :=
  match a, b with
  | .vb x, .vb y => x == y
  | .vb x, .vi y => (if x then (1 : Int) else 0) == y
  | .vi x, .vb y => x == (if y then (1 : Int) else 0)
  | .vb x, .vf y => (if x then (1 : Rat) else 0) == y
  | .vf x, .vb y => x == (if y then (1 : Rat) else 0)
  | .vi x, .vi y => x == y
  | .vi x, .vf y => ((x : Rat)) == y
  | .vf x, .vi y => x == ((y : Rat))
  | .vf x, .vf y => x == y
  | .vs x, .vs y => x == y
  | _, _ => false

/-- Python `float(x)` on a state value: fails (ValueError/TypeError) on
non-numeric strings. -/
def pyFloat (v : PyVal) : Option Rat :=
  match v with
  | .vb b => some (if b then 1 else 0)
  | .vi n => some ((n : Rat))
  | .vf q => some q
  | .vs s => pyFloatParse s

/-- One `OPERATORS` entry applied to normalised values.  `eq`/`neq` never
raise on these types.  For the ordering operators a side that `float()`
cannot convert raises; the `except (TypeError, ValueError)` fallback retries
on `str()` of both sides, where `float` raises again on the same side, so
the fallback never rescues an ordering comparison and the exception
propagates (caught in `evaluate` as an ERROR condition result). -/
def apply_operator (op : String) (a b : PyVal) : Except Unit Bool :=
  if op = "eq" then .ok (pyEq a b)
  else if op = "neq" then .ok (!pyEq a b)
  else if op = "gt" ∨ op = "lt" ∨ op = "gte" ∨ op = "lte" then
    match pyFloat a, pyFloat b with
    | some x, some y =>
      .ok (if op = "gt" then decide (x > y)
           else if op = "lt" then decide (x < y)
           else if op = "gte" then decide (x ≥ y)
           else decide (x ≤ y))
    | _, _ => .error ()
  else .ok false

/-- Embedding of `_evaluate_condition`: unknown operators return False
without raising; otherwise both sides are normalised and compared. -/
def evaluate_condition (actual : PyVal) (op : String) (threshold : PyVal) :
    Except Unit Bool :=
  if ¬ OPERATORS.contains op then .ok false
  else apply_operator op (normalise_value actual) (normalise_value threshold)

/-- A rule condition; `attr` is the source's "attribute" key (a Lean
keyword). -/
structure Condition where
  attr : String
  operator : String
  value : PyVal
deriving DecidableEq

instance : Inhabited Condition := ⟨⟨"", "", .vb false⟩⟩

/-- Result kind recorded per condition in the trace. -/
inductive CondResultKind where
  | PASS
  | FAIL
  | ERROR
deriving DecidableEq

/-- One entry of the `condition_results` list; `attr` is the recorded
"attribute" key. -/
structure CondResult where
  attr : String
  result : CondResultKind
deriving DecidableEq

/-- Value resolution for a condition: prefer `changed_data[attr]`, fall
back to the device's full state. -/
def resolve_value (changed full : StateMap) (attr : String) : Option PyVal :=
  match getKey changed attr with
  | some v => some v
  | none => getKey full attr

/-- The compound-condition loop of `evaluate` (lines 506-576): conditions
are checked in order; a missing attribute appends a FAIL entry and breaks,
an evaluation exception appends an ERROR entry and breaks, a false
comparison appends a FAIL entry and breaks, and a passing condition appends
a PASS entry and continues.  Returns the recorded `condition_results` and
the final `all_matched`. -/
def eval_conditions (changed full : StateMap) : List Condition → List CondResult × Bool
  | [] => ([], true)
  | c :: rest =>
    match resolve_value changed full c.attr with
    | none => ([⟨c.attr, .FAIL⟩], false)
    | some v =>
      match evaluate_condition v c.operator c.value with
      | .error _ => ([⟨c.attr, .ERROR⟩], false)
      | .ok matched =>
        if matched then
          let r := eval_conditions changed full rest
          (⟨c.attr, .PASS⟩ :: r.1, r.2)
        else ([⟨c.attr, .FAIL⟩], false)

/-- Outcome of a single condition viewed in isolation. -/
inductive CondOutcome where
  | pass
  | fail
  | err
deriving DecidableEq

/-- Outcome of one condition under the loop's resolution and evaluation. -/
def cond_outcome (changed full : StateMap) (c : Condition) : CondOutcome :=
  match resolve_value changed full c.attr with
  | none => .fail
  | some v =>
    match evaluate_condition v c.operator c.value with
    | .error _ => .err
    | .ok true => .pass
    | .ok false => .fail

end Automation

namespace Automation

/-- A passing head condition contributes one PASS entry and recurses. -/
theorem eval_conditions_cons_pass (changed full : StateMap) (c : Condition)
    (rest : List Condition) (h : cond_outcome changed full c = .pass) :
    eval_conditions changed full (c :: rest)
      = (⟨c.attr, .PASS⟩ :: (eval_conditions changed full rest).1,
         (eval_conditions changed full rest).2) := by
  unfold cond_outcome at h
  split at h
  · simp at h
  · rename_i v heq
    split at h
    · simp at h
    · rename_i hev
      simp only [eval_conditions, heq, hev, if_true]
    · simp at h

/-- A failing or erroring head condition stops the loop with one entry. -/
theorem eval_conditions_cons_stop (changed full : StateMap) (c : Condition)
    (rest : List Condition) (h : cond_outcome changed full c ≠ .pass) :
    (eval_conditions changed full (c :: rest)).2 = false ∧
    (eval_conditions changed full (c :: rest)).1.length = 1 ∧
    eval_conditions changed full (c :: rest) = eval_conditions changed full [c] := by
  unfold cond_outcome at h
  split at h
  · rename_i heq
    simp [eval_conditions, heq]
  · rename_i v heq
    split at h
    · rename_i e hev
      simp [eval_conditions, heq, hev]
    · exact absurd rfl h
    · rename_i hev
      simp [eval_conditions, heq, hev]

end Automation

/-- C7: short-circuit AND — whenever the first `k-1` conditions of a rule
pass and condition `k` (in declaration order) does not (false comparison,
attribute missing from the delta and the full state, or evaluation
exception), the loop records exactly `k` condition results, reports no
match, and the conditions after `k` are never evaluated: the outcome equals
that of the rule truncated to its first `k` conditions. -/
theorem C7_short_circuit_and (changed full : StateMap)
    (conds : List Automation.Condition) (k : Nat) (hk1 : 1 ≤ k)
    (hk : k ≤ conds.length)
    (hpass : ∀ i, i < k - 1 →
      Automation.cond_outcome changed full (conds.getD i default)
        = Automation.CondOutcome.pass)
    (hfail : Automation.cond_outcome changed full (conds.getD (k - 1) default)
        ≠ Automation.CondOutcome.pass) :
    (Automation.eval_conditions changed full conds).1.length = k ∧
    (Automation.eval_conditions changed full conds).2 = false ∧
    Automation.eval_conditions changed full conds
      = Automation.eval_conditions changed full (conds.take k) := by
  induction conds generalizing k with
  | nil => simp at hk; omega
  | cons c rest ih =>
    match k, hk1 with
    | 1, _ =>
      simp only [Nat.sub_self, List.getD_cons_zero] at hfail
      obtain ⟨h2, h1, heq⟩ := Automation.eval_conditions_cons_stop changed full c rest hfail
      exact ⟨h1, h2, by rw [heq]; rfl⟩
    | (k₂ + 2), _ =>
      have hc : Automation.cond_outcome changed full c = .pass := by
        have := hpass 0 (by omega)
        simpa using this
      have hstep := Automation.eval_conditions_cons_pass changed full c rest hc
      have ihres := ih (k₂ + 1) (by omega) (by simpa using hk)
        (fun i hi => by
          have := hpass (i + 1) (by omega)
          simpa using this)
        (by
          have heq : (c :: rest).getD (k₂ + 2 - 1) default
              = rest.getD (k₂ + 1 - 1) default := by
            simp
          rw [heq] at hfail
          exact hfail)
      refine ⟨?_, ?_, ?_⟩
      · rw [hstep]
        simp [ihres.1]
      · rw [hstep]
        exact ihres.2.1
      · have htake : (c :: rest).take (k₂ + 2) = c :: rest.take (k₂ + 1) := rfl
        rw [hstep, htake,
          Automation.eval_conditions_cons_pass changed full c (rest.take (k₂ + 1)) hc,
          ihres.2.2]

/-- Witness for C7: condition 2 of 3 fails (cached illuminance 120 not
below 50), so exactly 2 results are recorded. -/
theorem C7_short_circuit_and_witness :
    (1 : Nat) ≤ 2 ∧
    (Automation.eval_conditions [("occupancy", .vb true)] [("illuminance", .vi 120)]
      [⟨"occupancy", "eq", .vb true⟩, ⟨"illuminance", "lt", .vi 50⟩,
       ⟨"temperature", "gt", .vi 10⟩]).1.length = 2 := by
  refine ⟨by decide, ?_⟩
  exact (C7_short_circuit_and [("occupancy", .vb true)] [("illuminance", .vi 120)]
    [⟨"occupancy", "eq", .vb true⟩, ⟨"illuminance", "lt", .vi 50⟩,
     ⟨"temperature", "gt", .vi 10⟩] 2 (by decide) (by decide)
    (by decide) (by decide)).1

namespace Automation

/-- The action of a rule: command, optional value, optional endpoint. -/
structure Action where
  command : String
  value : Option PyVal
  endpoint_id : Option Nat
deriving DecidableEq

/-- An automation rule as stored in `self.rules`. -/
structure Rule where
  id : String
  enabled : Bool
  source_ieee : String
  conditions : List Condition
  target_ieee : String
  action : Action
  cooldown : Rat
  created : Rat
deriving DecidableEq

/-- Result phase of one rule inside `evaluate` (the trace `result` field). -/
inductive RuleResult where
  | DISABLED
  | NO_CONDITIONS
  | NOT_RELEVANT
  | NO_MATCH
  | BLOCKED
  | TARGET_MISSING
  | NO_SEND_COMMAND
  | FIRING
deriving DecidableEq

/-- Outcome of evaluating one rule once: the trace result, the cooldown
entry afterwards (`self._cooldowns[rule_id]`, `last_fired` before the call
when nothing fired), and whether a dispatch task was scheduled. -/
structure RuleEvalOutcome where
  result : RuleResult
  last_fired : Rat
  dispatched : Bool
deriving DecidableEq

/-- One rule pass of `evaluate` (lines 451-704): disabled and empty-
condition rules are skipped; rules whose watched attributes do not
intersect the changed keys are NOT_RELEVANT; the condition loop then runs;
on full match the cooldown gate `now - last_fired < cooldown` blocks; then
the target must be registered and expose `send_command`; finally
`last_fired` is set to `now` *before* the dispatch task is created.
Availability and capability checks only emit warnings and do not change the
outcome. -/
def evaluate_rule (rule : Rule) (changed full : StateMap) (now last_fired : Rat)
    (targetRegistered targetHasSend : Bool) : RuleEvalOutcome :=
  if ¬ rule.enabled then ⟨.DISABLED, last_fired, false⟩
  else if rule.conditions = [] then ⟨.NO_CONDITIONS, last_fired, false⟩
  else if ¬ rule.conditions.any (fun c => (getKey changed c.attr).isSome) then
    ⟨.NOT_RELEVANT, last_fired, false⟩
  else if (eval_conditions changed full rule.conditions).2 = false then
    ⟨.NO_MATCH, last_fired, false⟩
  else if now - last_fired < rule.cooldown then ⟨.BLOCKED, last_fired, false⟩
  else if ¬ targetRegistered then ⟨.TARGET_MISSING, last_fired, false⟩
  else if ¬ targetHasSend then ⟨.NO_SEND_COMMAND, last_fired, false⟩
  else ⟨.FIRING, now, true⟩

/-- One evaluation of the source device as seen by a single rule: the
changed delta, the device's full state, `time.time()` at entry, and whether
the rule's target is usable at that moment. -/
structure EvalInput where
  changed : StateMap
  full : StateMap
  now : Rat
  targetRegistered : Bool
  targetHasSend : Bool
deriving DecidableEq

/-- Dispatch times of a rule over a sequence of evaluations, threading the
cooldown entry exactly as `evaluate` does (`_cooldowns.get(rule_id, 0)`
starts at 0 for a fresh rule). -/
def fire_times (rule : Rule) (last_fired : Rat) : List EvalInput → List Rat
  | [] => []
  | inp :: rest =>
    let o := evaluate_rule rule inp.changed inp.full inp.now last_fired
      inp.targetRegistered inp.targetHasSend
    (if o.dispatched then [inp.now] else []) ++ fire_times rule o.last_fired rest

end Automation

namespace Automation

/-- Dispatch behaviour of one rule evaluation: a scheduled dispatch means
the cooldown entry was set to the evaluation time and the cooldown had
expired; without a dispatch the entry is unchanged. -/
theorem evaluate_rule_spec (rule : Rule) (changed full : StateMap) (now lf : Rat)
    (tr ts : Bool) :
    ((evaluate_rule rule changed full now lf tr ts).dispatched = true →
      (evaluate_rule rule changed full now lf tr ts).last_fired = now ∧
      rule.cooldown ≤ now - lf ∧
      (evaluate_rule rule changed full now lf tr ts).result = .FIRING) ∧
    ((evaluate_rule rule changed full now lf tr ts).dispatched = false →
      (evaluate_rule rule changed full now lf tr ts).last_fired = lf) := by
  unfold evaluate_rule
  split_ifs with h1 h2 h3 h4 h5 h6 h7 <;> simp
  linarith [not_lt.mp h5]

/-- Unfolding equation for `fire_times` on a nonempty input list. -/
theorem fire_times_cons (rule : Rule) (lf : Rat) (inp : EvalInput)
    (rest : List EvalInput) :
    fire_times rule lf (inp :: rest)
      = (if (evaluate_rule rule inp.changed inp.full inp.now lf
            inp.targetRegistered inp.targetHasSend).dispatched = true
         then [inp.now] else [])
        ++ fire_times rule (evaluate_rule rule inp.changed inp.full inp.now lf
            inp.targetRegistered inp.targetHasSend).last_fired rest := rfl

/-- Every dispatch happens at least one cooldown after the entry it saw. -/
theorem fire_times_ge (rule : Rule) (hC : 0 ≤ rule.cooldown) (lf : Rat)
    (inputs : List EvalInput) :
    ∀ t ∈ fire_times rule lf inputs, lf + rule.cooldown ≤ t := by
  induction inputs generalizing lf with
  | nil => simp [fire_times]
  | cons inp rest ih =>
    intro t ht
    rw [fire_times_cons] at ht
    cases hd : (evaluate_rule rule inp.changed inp.full inp.now lf
        inp.targetRegistered inp.targetHasSend).dispatched with
    | false =>
      rw [hd] at ht
      simp only [Bool.false_eq_true, if_false, List.nil_append] at ht
      have hlf := (evaluate_rule_spec rule inp.changed inp.full inp.now lf
        inp.targetRegistered inp.targetHasSend).2 hd
      rw [hlf] at ht
      exact ih lf t ht
    | true =>
      rw [hd] at ht
      simp only [if_true, List.singleton_append] at ht
      have hspec := (evaluate_rule_spec rule inp.changed inp.full inp.now lf
        inp.targetRegistered inp.targetHasSend).1 hd
      rcases List.mem_cons.1 ht with h1 | h2
      · rw [h1]
        linarith [hspec.2.1]
      · rw [hspec.1] at h2
        have hrec := ih inp.now t h2
        linarith [hspec.2.1]

/-- At most one dispatch of a rule falls in any half-open window
`[w, w + cooldown)` of one cooldown length. -/
theorem fire_times_window (rule : Rule) (hC : 0 ≤ rule.cooldown) (lf w : Rat)
    (inputs : List EvalInput) :
    ((fire_times rule lf inputs).filter
      (fun t => decide (w ≤ t) && decide (t < w + rule.cooldown))).length ≤ 1 := by
  induction inputs generalizing lf with
  | nil => simp [fire_times]
  | cons inp rest ih =>
    rw [fire_times_cons]
    cases hd : (evaluate_rule rule inp.changed inp.full inp.now lf
        inp.targetRegistered inp.targetHasSend).dispatched with
    | false =>
      simp only [Bool.false_eq_true, if_false, List.nil_append]
      exact ih _
    | true =>
      have hspec := (evaluate_rule_spec rule inp.changed inp.full inp.now lf
        inp.targetRegistered inp.targetHasSend).1 hd
      rw [hspec.1]
      simp only [if_true, List.singleton_append, List.filter_cons]
      by_cases hw : (decide (w ≤ inp.now) && decide (inp.now < w + rule.cooldown)) = true
      · have hwin : w ≤ inp.now ∧ inp.now < w + rule.cooldown := by
          simpa using hw
        have hempty : (fire_times rule inp.now rest).filter
            (fun t => decide (w ≤ t) && decide (t < w + rule.cooldown)) = [] := by
          rw [List.filter_eq_nil_iff]
          intro t ht
          have hge := fire_times_ge rule hC inp.now rest t ht
          simp only [Bool.and_eq_true, decide_eq_true_eq, not_and, not_lt]
          intro _
          linarith [hwin.1]
        rw [if_pos hw, hempty]
        simp
      · rw [if_neg hw]
        exact ih _

end Automation

/-- C1: cooldown discipline of `evaluate` — whenever a rule's conditions all
pass and the cooldown has expired (and the target is usable, without which
no dispatch is attempted), the engine stores `last_fired := now` as it
schedules the dispatch; a passing evaluation still inside the window is
traced BLOCKED with no dispatch and an unchanged entry; consequently over
any sequence of evaluations a rule with cooldown `C ≥ 0` dispatches at most
once within any half-open window of `C` seconds. -/
theorem C1_cooldown_at_most_once (rule : Automation.Rule) (changed full : StateMap)
    (now lf w : Rat) (tr ts : Bool) (inputs : List Automation.EvalInput)
    (hC : 0 ≤ rule.cooldown) :
    ((Automation.evaluate_rule rule changed full now lf tr ts).dispatched = true →
      (Automation.evaluate_rule rule changed full now lf tr ts).last_fired = now ∧
      (Automation.evaluate_rule rule changed full now lf tr ts).result = .FIRING) ∧
    (rule.enabled = true → rule.conditions ≠ [] →
     rule.conditions.any (fun c => (getKey changed c.attr).isSome) = true →
     (Automation.eval_conditions changed full rule.conditions).2 = true →
     tr = true → ts = true →
     ((now - lf < rule.cooldown →
        (Automation.evaluate_rule rule changed full now lf tr ts).result = .BLOCKED ∧
        (Automation.evaluate_rule rule changed full now lf tr ts).dispatched = false ∧
        (Automation.evaluate_rule rule changed full now lf tr ts).last_fired = lf) ∧
      (rule.cooldown ≤ now - lf →
        (Automation.evaluate_rule rule changed full now lf tr ts).result = .FIRING ∧
        (Automation.evaluate_rule rule changed full now lf tr ts).dispatched = true ∧
        (Automation.evaluate_rule rule changed full now lf tr ts).last_fired = now))) ∧
    ((Automation.fire_times rule lf inputs).filter
      (fun t => decide (w ≤ t) && decide (t < w + rule.cooldown))).length ≤ 1 := by
  refine ⟨?_, ?_, Automation.fire_times_window rule hC lf w inputs⟩
  · intro hd
    have hspec := (Automation.evaluate_rule_spec rule changed full now lf tr ts).1 hd
    exact ⟨hspec.1, hspec.2.2⟩
  · intro hen hconds hany hpass htr hts
    subst htr hts
    constructor
    · intro hwin
      unfold Automation.evaluate_rule
      rw [if_neg (by simp [hen]), if_neg hconds, if_neg (by simp [hany]),
        if_neg (by simp [hpass]), if_pos hwin]
      exact ⟨rfl, rfl, rfl⟩
    · intro hexp
      unfold Automation.evaluate_rule
      rw [if_neg (by simp [hen]), if_neg hconds, if_neg (by simp [hany]),
        if_neg (by simp [hpass]), if_neg (not_lt.mpr hexp), if_neg (by simp),
        if_neg (by simp)]
      exact ⟨rfl, rfl, rfl⟩

/-- Witness for C1: a matching evaluation 2 s after a fire with cooldown 5
is BLOCKED. -/
theorem C1_cooldown_at_most_once_witness :
    (0 : Rat) ≤ (5 : Rat) ∧
    ((102 : Rat) - 100 < 5) ∧
    (Automation.evaluate_rule
      ⟨"auto_1", true, "src", [⟨"occupancy", "eq", .vb true⟩], "tgt",
       ⟨"on", none, none⟩, 5, 0⟩
      [("occupancy", .vb true)] [] 102 100 true true).result
      = Automation.RuleResult.BLOCKED := by
  have hC : (0 : Rat) ≤ 5 := by norm_num
  have hwin : (102 : Rat) - 100 < 5 := by norm_num
  refine ⟨hC, hwin, ?_⟩
  exact (((C1_cooldown_at_most_once
    ⟨"auto_1", true, "src", [⟨"occupancy", "eq", .vb true⟩], "tgt",
     ⟨"on", none, none⟩, 5, 0⟩
    [("occupancy", .vb true)] [] 102 100 0 true true [] hC).2.1
    rfl (by decide) (by decide) (by decide) rfl rfl).1 hwin).1


namespace Automation

/-- An `add_rule` request.  The dict's required top-level keys (source,
target, command) are present by typing; `conditions` models the optional
"conditions" key and `single` the attribute/operator/value shorthand (it is
`some` exactly when all three keys are present). -/
structure AddRuleRequest where
  conditions : Option (List Condition)
  single : Option Condition
  source_ieee : String
  target_ieee : String
  command : String
  command_value : Option PyVal
  endpoint_id : Option Nat
  cooldown : Option Rat
  enabled : Option Bool
deriving DecidableEq

/-- Result of `add_rule`: the returned dict is either
`{"success": True, "rule": …}` or `{"success": False, "error": …}`. -/
inductive AddRuleOutcome where
  | ok (rule : Rule)
  | error (msg : String)
deriving DecidableEq

/-- Size of `self._source_index.get(src, [])` after `_rebuild_index`, which
indexes every rule with a truthy (non-empty) `source_ieee`. -/
def source_index_count (rules : List Rule) (src : String) : Nat :=
  (rules.filter (fun r => r.source_ieee == src && r.source_ieee != "")).length

/-- The validation tail of `add_rule`, shared by the compound and shorthand
paths, in source order: per-condition operator, command validity, per-source
rule cap, then source and target existence; only on success is the rule
appended (and the index and file rewritten).  `newId` stands for the fresh
`auto_<uuid4>` id and `now` for `time.time()` at creation. -/
def add_rule_checked (devices : List String) (rules : List Rule) (req : AddRuleRequest)
    (newId : String) (now : Rat) (conditions : List Condition) :
    AddRuleOutcome × List Rule :=
  if conditions.any (fun c => !(OPERATORS.contains c.operator)) then
    (.error "invalid operator", rules)
  else if ¬ VALID_COMMANDS.contains req.command then
    (.error "invalid command", rules)
  else if MAX_RULES_PER_DEVICE ≤ source_index_count rules req.source_ieee then
    (.error "maximum rules per device reached", rules)
  else if ¬ devices.contains req.source_ieee then
    (.error "source device not found", rules)
  else if ¬ devices.contains req.target_ieee then
    (.error "target device not found", rules)
  else
    let rule : Rule :=
      { id := newId, enabled := req.enabled.getD true,
        source_ieee := req.source_ieee, conditions := conditions,
        target_ieee := req.target_ieee,
        action := ⟨req.command, req.command_value, req.endpoint_id⟩,
        cooldown := req.cooldown.getD DEFAULT_COOLDOWN, created := now }
    (.ok rule, rules ++ [rule])

/-- Embedding of `add_rule` (lines 204-293): the conditions list is taken
from the "conditions" key when truthy (Python: an empty list is falsy and
falls through to the shorthand), capped at 5 entries, else built from the
attribute/operator/value shorthand; the remaining validation is
`add_rule_checked`. -/
def add_rule (devices : List String) (rules : List Rule) (req : AddRuleRequest)
    (newId : String) (now : Rat) : AddRuleOutcome × List Rule :=
  match req.conditions with
  | some cs =>
    if cs ≠ [] then
      if MAX_CONDITIONS_PER_RULE < cs.length then
        (.error "maximum conditions per rule", rules)
      else add_rule_checked devices rules req newId now cs
    else
      match req.single with
      | some c => add_rule_checked devices rules req newId now [c]
      | none => (.error "provide conditions or attribute fields", rules)
  | none =>
    match req.single with
    | some c => add_rule_checked devices rules req newId now [c]
    | none => (.error "provide conditions or attribute fields", rules)

end Automation

/-- C3: `add_rule` rejects — returning success:false with the rule list
unchanged — exactly when the request's conditions list is empty or longer
than 5, some condition's operator is outside {eq,neq,gt,lt,gte,lte}, the
command is outside the valid command set, the source or target ieee is not
a registered device, or the source already has 10 rules; otherwise it
appends exactly one new rule. -/
theorem C3_add_rule_validation (devices : List String) (rules : List Automation.Rule)
    (req : Automation.AddRuleRequest) (newId : String) (now : Rat)
    (cs : List Automation.Condition)
    (hconds : req.conditions = some cs) (hsingle : req.single = none) :
    ((cs = [] ∨ 5 < cs.length ∨
      cs.any (fun c => !(Automation.OPERATORS.contains c.operator)) = true ∨
      Automation.VALID_COMMANDS.contains req.command = false ∨
      devices.contains req.source_ieee = false ∨
      devices.contains req.target_ieee = false ∨
      10 ≤ Automation.source_index_count rules req.source_ieee) →
      (∃ msg, (Automation.add_rule devices rules req newId now).1
          = Automation.AddRuleOutcome.error msg) ∧
      (Automation.add_rule devices rules req newId now).2 = rules) ∧
    (¬ (cs = [] ∨ 5 < cs.length ∨
      cs.any (fun c => !(Automation.OPERATORS.contains c.operator)) = true ∨
      Automation.VALID_COMMANDS.contains req.command = false ∨
      devices.contains req.source_ieee = false ∨
      devices.contains req.target_ieee = false ∨
      10 ≤ Automation.source_index_count rules req.source_ieee) →
      ∃ rule, (Automation.add_rule devices rules req newId now).1
          = Automation.AddRuleOutcome.ok rule ∧
        (Automation.add_rule devices rules req newId now).2 = rules ++ [rule]) := by
  unfold Automation.add_rule
  rw [hconds, hsingle]
  simp only []
  by_cases h0 : cs = []
  · constructor
    · intro _
      rw [if_neg (by simp [h0])]
      exact ⟨⟨_, rfl⟩, rfl⟩
    · intro hD
      exact absurd (Or.inl h0) hD
  · rw [if_pos h0]
    by_cases h1 : 5 < cs.length
    · rw [if_pos (by simpa [Automation.MAX_CONDITIONS_PER_RULE] using h1)]
      exact ⟨fun _ => ⟨⟨_, rfl⟩, rfl⟩, fun hD => absurd (Or.inr (Or.inl h1)) hD⟩
    · rw [if_neg (by simpa [Automation.MAX_CONDITIONS_PER_RULE] using h1)]
      unfold Automation.add_rule_checked
      by_cases h2 : cs.any (fun c => !(Automation.OPERATORS.contains c.operator)) = true
      · rw [if_pos h2]
        exact ⟨fun _ => ⟨⟨_, rfl⟩, rfl⟩, fun hD => absurd (Or.inr (Or.inr (Or.inl h2))) hD⟩
      · rw [if_neg h2]
        by_cases h3 : Automation.VALID_COMMANDS.contains req.command = false
        · rw [if_pos (by simpa using h3)]
          exact ⟨fun _ => ⟨⟨_, rfl⟩, rfl⟩,
            fun hD => absurd (Or.inr (Or.inr (Or.inr (Or.inl h3)))) hD⟩
        · rw [if_neg (by simp_all)]
          by_cases h4 : 10 ≤ Automation.source_index_count rules req.source_ieee
          · rw [if_pos (by simpa [Automation.MAX_RULES_PER_DEVICE] using h4)]
            exact ⟨fun _ => ⟨⟨_, rfl⟩, rfl⟩,
              fun hD => absurd (Or.inr (Or.inr (Or.inr (Or.inr (Or.inr (Or.inr h4)))))) hD⟩
          · rw [if_neg (by simpa [Automation.MAX_RULES_PER_DEVICE] using h4)]
            by_cases h5 : devices.contains req.source_ieee = false
            · rw [if_pos (by simpa using h5)]
              exact ⟨fun _ => ⟨⟨_, rfl⟩, rfl⟩,
                fun hD => absurd (Or.inr (Or.inr (Or.inr (Or.inr (Or.inl h5))))) hD⟩
            · rw [if_neg (by simp_all)]
              by_cases h6 : devices.contains req.target_ieee = false
              · rw [if_pos (by simpa using h6)]
                exact ⟨fun _ => ⟨⟨_, rfl⟩, rfl⟩,
                  fun hD => absurd (Or.inr (Or.inr (Or.inr (Or.inr (Or.inr (Or.inl h6)))))) hD⟩
              · rw [if_neg (by simp_all)]
                refine ⟨fun hD => ?_, fun _ => ⟨_, rfl, rfl⟩⟩
                rcases hD with h | h | h | h | h | h | h
                · exact absurd h h0
                · exact absurd h h1
                · exact absurd h h2
                · exact absurd h h3
                · exact absurd h h5
                · exact absurd h h6
                · exact absurd h h4

/-- Witness for C3: a well-formed request on a two-device registry is
accepted and appends one rule. -/
theorem C3_add_rule_validation_witness :
    (Automation.AddRuleRequest.mk (some [⟨"occupancy", "eq", .vb true⟩]) none
        "aa11" "bb22" "on" none none none none).conditions
      = some [⟨"occupancy", "eq", .vb true⟩] ∧
    ∃ rule, (Automation.add_rule ["aa11", "bb22"] []
        (Automation.AddRuleRequest.mk (some [⟨"occupancy", "eq", .vb true⟩]) none
          "aa11" "bb22" "on" none none none none) "auto_cafe0123" 1000).1
        = Automation.AddRuleOutcome.ok rule ∧
      (Automation.add_rule ["aa11", "bb22"] []
        (Automation.AddRuleRequest.mk (some [⟨"occupancy", "eq", .vb true⟩]) none
          "aa11" "bb22" "on" none none none none) "auto_cafe0123" 1000).2 = [] ++ [rule] := by
  refine ⟨rfl, ?_⟩
  exact (C3_add_rule_validation ["aa11", "bb22"] []
    (Automation.AddRuleRequest.mk (some [⟨"occupancy", "eq", .vb true⟩]) none
      "aa11" "bb22" "on" none none none none) "auto_cafe0123" 1000
    [⟨"occupancy", "eq", .vb true⟩] rfl rfl).2 (by decide)

namespace Persistence

/-! Embedding of `AutomationEngine._save_rules` (src/modules/automation.py,
lines 142-150) as the sequence of filesystem operations it performs. -/

/-- Filesystem operations visible in `_save_rules`: directory creation,
opening a path for (truncating) write, the `json.dump` of the single
document whose only top-level key is "rules", and a rename (present in the
model so the spec's write-to-temp-then-rename shape is expressible). -/
inductive FsOp where
  | makedirs (path : String)
  | openWrite (path : String)
  | writeRulesDoc (path : String) (rules : List Automation.Rule)
  | rename (src dst : String)
deriving DecidableEq

/-- `DATA_FILE`. -/
def DATA_FILE : String := "./data/automations.json"

/-- The operations `_save_rules` performs, in order: `os.makedirs` of the
data directory, then `open(DATA_FILE, "w")` — a direct truncating open of
the target — then `json.dump({"rules": self.rules}, f, indent=2)`.  There
is no temporary file and no rename; write errors are caught and logged. -/
def save_rules_ops (rules : List Automation.Rule) : List FsOp :=
  [ .makedirs "./data",
    .openWrite DATA_FILE,
    .writeRulesDoc DATA_FILE rules ]

/-- Modelled from the spec: "atomic write (write-to-temp-then-rename)" —
a save is atomic in the spec's sense when it opens only a temporary path
distinct from the target and installs it with a rename over the target. -/
def writes_via_temp_rename (ops : List FsOp) (target : String) : Bool :=
  (ops.any (fun op =>
    match op with
    | .rename src dst => dst == target && src != target && ops.contains (.openWrite src)
    | _ => false)) &&
  !(ops.contains (.openWrite target))

end Persistence

/-- C6 counterexample: `_save_rules` does not follow the write-to-temp-
then-rename pattern — it opens `./data/automations.json` itself for
truncating write, so an interrupted save can leave a partial file. -/
theorem C6_counterexample_no_temp_rename :
    Persistence.writes_via_temp_rename (Persistence.save_rules_ops [])
      Persistence.DATA_FILE = false ∧
    Persistence.FsOp.openWrite Persistence.DATA_FILE ∈ Persistence.save_rules_ops [] := by
  decide

/-- C6 amended: `_save_rules` persists the rules as a single JSON document
with a "rules" array at ./data/automations.json (creating ./data on
demand), but by opening and truncating the target file directly: it
performs exactly one document write, to the target path, and never renames,
so the write is not atomic and an interrupted save can leave a partially
written file. -/
theorem C6_save_rules_direct_write (rules : List Automation.Rule) :
    ((Persistence.save_rules_ops rules).filter
      (fun op => match op with | .writeRulesDoc _ _ => true | _ => false)).length = 1 ∧
    Persistence.FsOp.writeRulesDoc Persistence.DATA_FILE rules
      ∈ Persistence.save_rules_ops rules ∧
    (∀ src dst, Persistence.FsOp.rename src dst ∉ Persistence.save_rules_ops rules) ∧
    Persistence.FsOp.openWrite Persistence.DATA_FILE ∈ Persistence.save_rules_ops rules ∧
    Persistence.FsOp.makedirs "./data" ∈ Persistence.save_rules_ops rules := by
  refine ⟨rfl, ?_, ?_, ?_, ?_⟩
  · simp [Persistence.save_rules_ops]
  · intro src dst
    simp [Persistence.save_rules_ops]
  · simp [Persistence.save_rules_ops]
  · simp [Persistence.save_rules_ops]
